import Mathlib

/-!
Verification development for the `tool-orchestrator` crate.

The crate's core (`src/engine.rs`, `src/sandbox.rs`, `src/types.rs`) executes
Rhai scripts that may call registered host tools.  The Rhai engine itself is an
external collaborator: the orchestrator hands it a table of bound tool
closures, compiles the source, evaluates it, and post-processes the outcome.
We embed the orchestrator's own logic shallowly:

* script dynamic values (`rhai::Dynamic`, as used by this crate) become the
  tagged `Dynamic` inductive;
* `serde_json::Value` becomes the `Json` inductive;
* the per-execution session state (call counter + audit log, held behind
  `Arc<Mutex<_>>` / `Rc<RefCell<_>>` and threaded through the bound tool
  closures) becomes explicit state passing over `SessionState`;
* an engine run is abstracted as a `ScriptOutcome`: either compilation fails,
  or evaluation performs a finite trace of tool invocations (each invocation
  is the engine entering one bound tool closure) and then ends in an
  evaluation error or a final dynamic value.  Tool closures are only bound
  into and invoked by the evaluator, never by the compiler, which is why a
  compile failure carries no invocation trace.
-/

/-- Textual representation of an `f64` payload.  The orchestrator never
computes with floats; it only carries them from the script value model into
the JSON model, so the payload is kept opaque. -/
structure FloatRep where
  repr : String
deriving DecidableEq, Repr

namespace Rhai

/-- Model of `rhai::Dynamic` as the explicit tagged variant enumeration of the
runtime type tags that `dynamic_to_json` and the output normalization in
`ToolOrchestrator::execute` probe (`is_string`, `is_int`, `is_float`,
`is_bool`, `is_array`, `is_map`, `is_unit`, anything else).  The `other`
constructor carries the debug text of a custom-typed value. -/
inductive Dynamic where
  | str (s : String)
  | int (i : Int)
  | float (f : FloatRep)
  | bool (b : Bool)
  | array (elems : List Dynamic)
  | map (entries : List (String × Dynamic))
  | unit
  | other (debugText : String)

end Rhai

/-- Model of `serde_json::Value`.  `dynamic_to_json` produces integer numbers
via `serde_json::Number::from(i64)` and float numbers via `json!(f64)`; the two
are kept apart so the embedding does not invent a common numeric type. -/
inductive Json where
  | str (s : String)
  | intNum (n : Int)
  | floatNum (f : FloatRep)
  | bool (b : Bool)
  | arr (elems : List Json)
  | obj (entries : List (String × Json))
  | null

namespace Rhai.Dynamic

/-- `Dynamic::is_string`. -/
def is_string : Dynamic → Bool
  | .str _ => true
  | _ => false

/-- `Dynamic::is_int`. -/
def is_int : Dynamic → Bool
  | .int _ => true
  | _ => false

/-- `Dynamic::is_float`. -/
def is_float : Dynamic → Bool
  | .float _ => true
  | _ => false

/-- `Dynamic::is_bool`. -/
def is_bool : Dynamic → Bool
  | .bool _ => true
  | _ => false

/-- `Dynamic::is_array`. -/
def is_array : Dynamic → Bool
  | .array _ => true
  | _ => false

/-- `Dynamic::is_map`. -/
def is_map : Dynamic → Bool
  | .map _ => true
  | _ => false

/-- `Dynamic::is_unit`. -/
def is_unit : Dynamic → Bool
  | .unit => true
  | _ => false

/-- `Dynamic::into_string().unwrap_or_default()`: the payload of a string
value, and the default empty string on every other tag. -/
def into_string : Dynamic → String
  | .str s => s
  | _ => ""

/-- `Dynamic::as_int().unwrap_or(0)`. -/
def as_int : Dynamic → Int
  | .int i => i
  | _ => 0

/-- `Dynamic::as_float().unwrap_or(0.0)`. -/
def as_float : Dynamic → FloatRep
  | .float f => f
  | _ => ⟨"0.0"⟩

/-- `Dynamic::as_bool().unwrap_or(false)`. -/
def as_bool : Dynamic → Bool
  | .bool b => b
  | _ => false

end Rhai.Dynamic

mutual
/-- Model of `format!("{:?}", value)` on a `rhai::Dynamic`.  The precise text
is produced by the engine crate's `Debug` implementation (an external
collaborator); this model renders each tag in a fixed debug style.  The
orchestrator only ever uses this text opaquely (as fallback JSON string
content and as non-string script output). -/
def Rhai.Dynamic.debugFormat : Rhai.Dynamic → String
  | .str s => "\"" ++ s ++ "\""
  | .int i => toString i
  | .float f => f.repr
  | .bool b => if b then "true" else "false"
  | .array elems => "[" ++ debugFormatList elems ++ "]"
  | .map entries => "#\x7b" ++ debugFormatEntries entries ++ "\x7d"
  | .unit => "()"
  | .other debugText => debugText

/-- Debug rendering of the elements of a dynamic array, comma separated. -/
def debugFormatList : List Rhai.Dynamic → String
  | [] => ""
  | [d] => Rhai.Dynamic.debugFormat d
  | d :: ds => Rhai.Dynamic.debugFormat d ++ ", " ++ debugFormatList ds

/-- Debug rendering of the entries of a dynamic map, comma separated. -/
def debugFormatEntries : List (String × Rhai.Dynamic) → String
  | [] => ""
  | [kv] => kv.1 ++ ": " ++ Rhai.Dynamic.debugFormat kv.2
  | kv :: kvs => kv.1 ++ ": " ++ Rhai.Dynamic.debugFormat kv.2 ++ ", " ++ debugFormatEntries kvs
end

mutual
/-- `dynamic_to_json` (engine.rs): convert a script dynamic value to JSON.
The source probes the runtime tag with an if/else chain in the order
string, int, float, bool, array, map, unit, fallback; in the tagged model the
tags are disjoint, so the chain is a total match.  Arrays convert their
elements recursively in order; maps stringify keys (already strings here, as
`rhai::Map` keys are strings) and convert values recursively; unit becomes
null; any other value becomes a JSON string holding its debug text. -/
def dynamic_to_json : Rhai.Dynamic → Json
  | .str s => .str s
  | .int i => .intNum i
  | .float f => .floatNum f
  | .bool b => .bool b
  | .array elems => .arr (dynamicListToJson elems)
  | .map entries => .obj (dynamicEntriesToJson entries)
  | .unit => .null
  | .other debugText => .str (Rhai.Dynamic.debugFormat (.other debugText))

/-- Elementwise conversion of a dynamic array's contents, preserving order
(`arr.iter().map(dynamic_to_json).collect()`). -/
def dynamicListToJson : List Rhai.Dynamic → List Json
  | [] => []
  | d :: ds => dynamic_to_json d :: dynamicListToJson ds

/-- Entrywise conversion of a dynamic map's contents
(`json_map.insert(k.to_string(), dynamic_to_json(v))` over `map.iter()`). -/
def dynamicEntriesToJson : List (String × Rhai.Dynamic) → List (String × Json)
  | [] => []
  | kv :: kvs => (kv.1, dynamic_to_json kv.2) :: dynamicEntriesToJson kvs
end

/-! ### Resource limits (`src/sandbox.rs`) -/

/-- `DEFAULT_MAX_OPERATIONS`. -/
def DEFAULT_MAX_OPERATIONS : Nat := 100000

/-- `DEFAULT_MAX_TOOL_CALLS`. -/
def DEFAULT_MAX_TOOL_CALLS : Nat := 50

/-- `DEFAULT_TIMEOUT_MS`. -/
def DEFAULT_TIMEOUT_MS : Nat := 30000

/-- `DEFAULT_MAX_STRING_SIZE`. -/
def DEFAULT_MAX_STRING_SIZE : Nat := 10000000

/-- `DEFAULT_MAX_ARRAY_SIZE`. -/
def DEFAULT_MAX_ARRAY_SIZE : Nat := 10000

/-- `DEFAULT_MAX_MAP_SIZE`. -/
def DEFAULT_MAX_MAP_SIZE : Nat := 1000

/-- `QUICK_MAX_OPERATIONS`. -/
def QUICK_MAX_OPERATIONS : Nat := 10000

/-- `QUICK_MAX_TOOL_CALLS`. -/
def QUICK_MAX_TOOL_CALLS : Nat := 10

/-- `QUICK_TIMEOUT_MS`. -/
def QUICK_TIMEOUT_MS : Nat := 5000

/-- `EXTENDED_MAX_OPERATIONS`. -/
def EXTENDED_MAX_OPERATIONS : Nat := 500000

/-- `EXTENDED_MAX_TOOL_CALLS`. -/
def EXTENDED_MAX_TOOL_CALLS : Nat := 100

/-- `EXTENDED_TIMEOUT_MS`. -/
def EXTENDED_TIMEOUT_MS : Nat := 120000

/-- `ExecutionLimits` (sandbox.rs).  The `u64`/`usize` fields are modelled as
`Nat`; no arithmetic in the orchestrator can overflow them, they are only
stored, compared and echoed into errors. -/
structure ExecutionLimits where
  max_operations : Nat
  max_tool_calls : Nat
  timeout_ms : Nat
  max_string_size : Nat
  max_array_size : Nat
  max_map_size : Nat
deriving DecidableEq, Repr

namespace ExecutionLimits

/-- `Default for ExecutionLimits`. -/
def default : ExecutionLimits :=
  { max_operations := DEFAULT_MAX_OPERATIONS
    max_tool_calls := DEFAULT_MAX_TOOL_CALLS
    timeout_ms := DEFAULT_TIMEOUT_MS
    max_string_size := DEFAULT_MAX_STRING_SIZE
    max_array_size := DEFAULT_MAX_ARRAY_SIZE
    max_map_size := DEFAULT_MAX_MAP_SIZE }

/-- `ExecutionLimits::new`. -/
def new : ExecutionLimits := default

/-- `ExecutionLimits::quick`. -/
def quick : ExecutionLimits :=
  { default with
    max_operations := QUICK_MAX_OPERATIONS
    max_tool_calls := QUICK_MAX_TOOL_CALLS
    timeout_ms := QUICK_TIMEOUT_MS }

/-- `ExecutionLimits::extended`. -/
def extended : ExecutionLimits :=
  { default with
    max_operations := EXTENDED_MAX_OPERATIONS
    max_tool_calls := EXTENDED_MAX_TOOL_CALLS
    timeout_ms := EXTENDED_TIMEOUT_MS }

/-- `ExecutionLimits::with_max_operations`. -/
def with_max_operations (self : ExecutionLimits) (max : Nat) : ExecutionLimits :=
  { self with max_operations := max }

/-- `ExecutionLimits::with_max_tool_calls`. -/
def with_max_tool_calls (self : ExecutionLimits) (max : Nat) : ExecutionLimits :=
  { self with max_tool_calls := max }

/-- `ExecutionLimits::with_timeout_ms`. -/
def with_timeout_ms (self : ExecutionLimits) (timeout : Nat) : ExecutionLimits :=
  { self with timeout_ms := timeout }

/-- `ExecutionLimits::with_max_string_size`. -/
def with_max_string_size (self : ExecutionLimits) (size : Nat) : ExecutionLimits :=
  { self with max_string_size := size }

/-- `ExecutionLimits::with_max_array_size`. -/
def with_max_array_size (self : ExecutionLimits) (size : Nat) : ExecutionLimits :=
  { self with max_array_size := size }

/-- `ExecutionLimits::with_max_map_size`. -/
def with_max_map_size (self : ExecutionLimits) (size : Nat) : ExecutionLimits :=
  { self with max_map_size := size }

end ExecutionLimits

/-! ### Result and error types (`src/types.rs`) -/

/-- `ToolCall` (types.rs): one audit record. -/
structure ToolCall where
  tool_name : String
  input : Json
  output : String
  success : Bool
  duration_ms : Nat

/-- `ToolCall::new`. -/
def ToolCall.new (tool_name : String) (input : Json) (output : String)
    (success : Bool) (duration_ms : Nat) : ToolCall :=
  { tool_name := tool_name, input := input, output := output,
    success := success, duration_ms := duration_ms }

/-- `OrchestratorResult` (types.rs). -/
structure OrchestratorResult where
  success : Bool
  output : String
  tool_calls : List ToolCall
  execution_time_ms : Nat
  error : Option String

/-- `OrchestratorResult::success` (the constructor function; named `mkSuccess`
here because the field projection already takes the name `success`). -/
def OrchestratorResult.mkSuccess (output : String) (tool_calls : List ToolCall)
    (execution_time_ms : Nat) : OrchestratorResult :=
  { success := true, output := output, tool_calls := tool_calls,
    execution_time_ms := execution_time_ms, error := none }

/-- `OrchestratorResult::error` (named `mkError`; the field projection already
takes the name `error`). -/
def OrchestratorResult.mkError (error : String) (tool_calls : List ToolCall)
    (execution_time_ms : Nat) : OrchestratorResult :=
  { success := false, output := "", tool_calls := tool_calls,
    execution_time_ms := execution_time_ms, error := some error }

/-- `OrchestratorError` (types.rs): the full error taxonomy, including the
`MaxToolCallsExceeded` variant that the execution path never raises. -/
inductive OrchestratorError where
  | CompilationError (msg : String)
  | ExecutionError (msg : String)
  | MaxOperationsExceeded (limit : Nat)
  | MaxToolCallsExceeded (limit : Nat)
  | Timeout (limit_ms : Nat)
  | ToolNotFound (name : String)
  | ToolError (msg : String)
deriving DecidableEq, Repr

/-- Tag test for the `OrchestratorError::MaxToolCallsExceeded` variant. -/
def OrchestratorError.isMaxToolCallsExceeded : OrchestratorError → Bool
  | .MaxToolCallsExceeded _ => true
  | _ => false

/-! ### The orchestrator (`src/engine.rs`) -/

/-- `ToolExecutor`: a registered handler, `serde_json::Value →
Result<String, String>` (`Except.ok` ↦ `Ok`, `Except.error` ↦ `Err`). -/
def ToolExecutor := Json → Except String String

/-- `increment_counter` (engine.rs): reject (`Err(())`) when the counter is
already at `max`, otherwise return the incremented counter.  The mutation of
the shared counter is modelled by returning the new value. -/
def increment_counter (c : Nat) (max : Nat) : Except Unit Nat :=
  if c ≥ max then .error () else .ok (c + 1)

/-- Per-execution session state: the shared call counter
(`SharedCounter`, initially 0) and the shared audit log (`SharedVec<ToolCall>`,
initially empty) that `execute` threads through every bound tool closure. -/
structure SessionState where
  call_count : Nat
  tool_calls : List ToolCall

/-- The fresh session state `execute` creates (`new_shared_counter()` /
`new_shared_vec()`). -/
def initialSession : SessionState := { call_count := 0, tool_calls := [] }

/-- The body of the closure `execute` registers for each tool
(engine.rs, `engine.register_fn(name, move |input| ...)`).  Checks the call
limit via `increment_counter`; on rejection returns the sentinel string and
leaves the session untouched.  Otherwise converts the input with
`dynamic_to_json`, invokes the handler, forms the output (error-prefixed on
handler failure), appends the audit record, and returns the output to the
script.  `duration_ms` is the closure's wall-clock measurement, an input of
the model. -/
def toolCallClosure (exec : ToolExecutor) (tool_name : String) (max_calls : Nat)
    (input : Rhai.Dynamic) (duration_ms : Nat) (st : SessionState) :
    String × SessionState :=
  match increment_counter st.call_count max_calls with
  | .error _ =>
      ("ERROR: Maximum tool calls (" ++ toString max_calls ++ ") exceeded", st)
  | .ok newCount =>
      let json_input := dynamic_to_json input
      let outcome :=
        match exec json_input with
        | .ok result => (result, true)
        | .error e => ("Tool error: " ++ e, false)
      let call := ToolCall.new tool_name json_input outcome.1 outcome.2 duration_ms
      (outcome.1,
       { call_count := newCount, tool_calls := st.tool_calls ++ [call] })

/-- Lookup in the executor table (`HashMap<String, ToolExecutor>` modelled as
an association list with unique keys; `self.executors.get(name)`). -/
def findExecutor : List (String × ToolExecutor) → String → Option ToolExecutor
  | [], _ => none
  | (k, f) :: rest, name => if k = name then some f else findExecutor rest name

/-- One tool invocation the engine performs during evaluation: the tool name
the script called, the dynamic argument, and the wall-clock duration the
closure measures for the handler. -/
structure Invocation where
  name : String
  input : Rhai.Dynamic
  duration_ms : Nat

/-- The engine entering the bound closure for one invocation.  The engine only
binds (and can only invoke) closures for registered names, so the `none`
branch is unreachable in any run of the real system; it returns an empty
output and leaves the session untouched. -/
def processInvocation (executors : List (String × ToolExecutor)) (max_calls : Nat)
    (st : SessionState) (ev : Invocation) : String × SessionState :=
  match findExecutor executors ev.name with
  | some exec => toolCallClosure exec ev.name max_calls ev.input ev.duration_ms st
  | none => ("", st)

/-- Run a whole invocation trace through the session, collecting the string
each closure returned to the script and the final session state. -/
def runTrace (executors : List (String × ToolExecutor)) (max_calls : Nat)
    (st : SessionState) : List Invocation → List String × SessionState
  | [] => ([], st)
  | ev :: rest =>
      let step := processInvocation executors max_calls st ev
      let toolRest := runTrace executors max_calls step.2 rest
      (step.1 :: toolRest.1, toolRest.2)

/-- The three shapes of `rhai::EvalAltResult` that `execute` distinguishes:
`ErrorTooManyOperations` (operation cap), `ErrorTerminated` (abort requested
by the `on_progress` hook, carrying its token), and every other evaluation
failure collapsed to its display text. -/
inductive EvalAltResult where
  | ErrorTooManyOperations (pos : Nat)
  | ErrorTerminated (token : Rhai.Dynamic) (pos : Nat)
  | otherError (msg : String)

/-- `e.to_string()` for the catch-all arm of the error mapping. -/
def EvalAltResult.toMessage : EvalAltResult → String
  | .ErrorTooManyOperations _ => "Too many operations"
  | .ErrorTerminated _ _ => "Script terminated"
  | .otherError msg => msg

/-- The engine run `execute` drives, abstracted: compilation either fails with
a message (then evaluation never starts and no tool closure ever runs — the
closures are invoked only by the evaluator), or evaluation runs, entering
tool closures for the invocations in `trace` in script order, and ends either
in an evaluation error or in a final dynamic value. -/
inductive ScriptOutcome where
  | compileError (msg : String)
  | evalError (trace : List Invocation) (err : EvalAltResult)
  | value (trace : List Invocation) (v : Rhai.Dynamic)

/-- The `on_progress` hook `execute` installs: once elapsed wall-clock time
exceeds `timeout_ms` it requests termination with the token `"timeout"`,
otherwise it lets evaluation continue. -/
def on_progress (elapsed_ms : Nat) (timeout_ms : Nat) : Option Rhai.Dynamic :=
  if elapsed_ms > timeout_ms then some (.str "timeout") else none

/-- `ToolOrchestrator` (engine.rs): the registry of executors.  The embedded
`Engine` field is configuration-only and never used by `execute` (which builds
a fresh engine per call), so it has no model. -/
structure ToolOrchestrator where
  executors : List (String × ToolExecutor)

namespace ToolOrchestrator

/-- `ToolOrchestrator::new`: empty registry. -/
def new : ToolOrchestrator := { executors := [] }

/-- `HashMap::insert` on the executor table: replace the binding if the key
exists, otherwise append it. -/
def insertExecutor (table : List (String × ToolExecutor)) (name : String)
    (f : ToolExecutor) : List (String × ToolExecutor) :=
  match table with
  | [] => [(name, f)]
  | (k, g) :: rest =>
      if k = name then (name, f) :: rest
      else (k, g) :: insertExecutor rest name f

/-- `ToolOrchestrator::register_executor`. -/
def register_executor (self : ToolOrchestrator) (name : String)
    (f : ToolExecutor) : ToolOrchestrator :=
  { executors := insertExecutor self.executors name f }

/-- `ToolOrchestrator::registered_tools`. -/
def registered_tools (self : ToolOrchestrator) : List String :=
  self.executors.map (fun kv => kv.1)

/-- `ToolOrchestrator::execute` (engine.rs).  The engine-side behaviour of the
script is `run`; `execution_time_ms` is the wall-clock figure measured for the
whole call.  Compilation failure maps to `CompilationError` before any
evaluation.  Evaluation failure maps `ErrorTooManyOperations` to
`MaxOperationsExceeded(limits.max_operations)`, `ErrorTerminated` to
`Timeout(limits.timeout_ms)`, everything else to `ExecutionError`.  On
success the final value is normalized to text (strings pass through, unit
becomes empty, otherwise debug formatting) and the accumulated audit log is
returned via `OrchestratorResult::success`. -/
def execute (self : ToolOrchestrator) (limits : ExecutionLimits)
    (run : ScriptOutcome) (execution_time_ms : Nat) :
    Except OrchestratorError OrchestratorResult :=
  match run with
  | .compileError msg => .error (.CompilationError msg)
  | .evalError _trace e =>
      .error
        (match e with
         | .ErrorTooManyOperations _ => .MaxOperationsExceeded limits.max_operations
         | .ErrorTerminated _ _ => .Timeout limits.timeout_ms
         | .otherError msg => .ExecutionError (EvalAltResult.toMessage (.otherError msg)))
  | .value trace result =>
      let session := (runTrace self.executors limits.max_tool_calls initialSession trace).2
      let output :=
        if result.is_string then result.into_string
        else if result.is_unit then ""
        else result.debugFormat
      .ok (OrchestratorResult.mkSuccess output session.tool_calls execution_time_ms)

end ToolOrchestrator

/-! ### MCP service layer (`src/mcp/server.rs`) -/

/-- `RegisteredShellTool` (mcp/server.rs). -/
structure RegisteredShellTool where
  name : String
  description : String
  command : String
deriving DecidableEq, Repr

/-- Lookup in the service's `HashMap<String, RegisteredShellTool>` (modelled
as an association list with unique keys). -/
def shellToolsLookup : List (String × RegisteredShellTool) → String →
    Option RegisteredShellTool
  | [], _ => none
  | (k, v) :: rest, name => if k = name then some v else shellToolsLookup rest name

/-- `HashMap::remove` on the shell-tool table: drop the binding for `name`. -/
def shellToolsRemove (tools : List (String × RegisteredShellTool))
    (name : String) : List (String × RegisteredShellTool) :=
  tools.filter (fun kv => kv.1 ≠ name)

/-- `ToolOrchestratorService::unregister_tool` (mcp/server.rs): compute
`removed = tools.remove(&name).is_some()` and answer with a text message
chosen by that boolean.  The model returns the internal boolean, the message
text the host sees, and the table after removal. -/
def ToolOrchestratorService.unregister_tool
    (tools : List (String × RegisteredShellTool)) (name : String) :
    Bool × String × List (String × RegisteredShellTool) :=
  let removed := (shellToolsLookup tools name).isSome
  let remaining := shellToolsRemove tools name
  if removed then
    (removed, "Tool '" ++ name ++ "' unregistered", remaining)
  else
    (removed, "Tool '" ++ name ++ "' not found", remaining)

/-- The host-facing methods declared by the `impl ToolOrchestrator` block in
engine.rs (its `pub fn` items) together with the `Default` implementation:
the complete surface the core orchestrator exposes to hosts. -/
def ToolOrchestrator.hostMethods : List String :=
  ["new", "register_executor", "execute", "registered_tools", "default"]

/-! ### Session-accounting lemmas -/

/-- The record the bound closure appends for an invocation it accepts: the
handler output (error-prefixed on failure) under the invoked name, with the
converted input and the measured duration. -/
def traceRecord (executors : List (String × ToolExecutor)) (ev : Invocation) :
    ToolCall :=
  match findExecutor executors ev.name with
  | some exec =>
      let json_input := dynamic_to_json ev.input
      (match exec json_input with
       | .ok result => ToolCall.new ev.name json_input result true ev.duration_ms
       | .error e =>
           ToolCall.new ev.name json_input ("Tool error: " ++ e) false ev.duration_ms)
  | none => ToolCall.new ev.name (dynamic_to_json ev.input) "" false ev.duration_ms

theorem processInvocation_cases (executors : List (String × ToolExecutor))
    (max st ev) :
    (processInvocation executors max st ev).2 = st ∨
    (st.call_count < max ∧
     (processInvocation executors max st ev).2.call_count = st.call_count + 1 ∧
     (processInvocation executors max st ev).2.tool_calls
       = st.tool_calls ++ [traceRecord executors ev]) := by
  unfold processInvocation traceRecord
  cases h : findExecutor executors ev.name with
  | none => simp
  | some exec =>
      unfold toolCallClosure increment_counter
      by_cases hc : st.call_count ≥ max
      · simp [hc]
      · right
        refine ⟨Nat.lt_of_not_ge hc, ?_, ?_⟩ <;>
          cases hx : exec (dynamic_to_json ev.input) <;> simp [hc, hx]

theorem runTrace_length_le (executors : List (String × ToolExecutor)) (max : Nat) :
    ∀ (tr : List Invocation) (st : SessionState),
      st.tool_calls.length ≤ st.call_count → st.call_count ≤ max →
      (runTrace executors max st tr).2.tool_calls.length
          ≤ (runTrace executors max st tr).2.call_count
        ∧ (runTrace executors max st tr).2.call_count ≤ max := by
  intro tr
  induction tr with
  | nil => intro st h1 h2; exact ⟨h1, h2⟩
  | cons ev rest ih =>
      intro st h1 h2
      have hstep := processInvocation_cases executors max st ev
      simp only [runTrace]
      rcases hstep with heq | ⟨hlt, hcount, hcalls⟩
      · rw [heq]; exact ih st h1 h2
      · refine ih _ ?_ ?_
        · rw [hcount, hcalls]
          simpa using Nat.add_le_add_right h1 1
        · rw [hcount]; exact hlt

theorem runTrace_sublist (executors : List (String × ToolExecutor)) (max : Nat) :
    ∀ (tr : List Invocation) (st : SessionState),
      ∃ Δ, (runTrace executors max st tr).2.tool_calls = st.tool_calls ++ Δ
        ∧ List.Sublist Δ (tr.map (traceRecord executors)) := by
  intro tr
  induction tr with
  | nil => intro st; exact ⟨[], by simp [runTrace]⟩
  | cons ev rest ih =>
      intro st
      simp only [runTrace]
      rcases ih (processInvocation executors max st ev).2 with ⟨Δ, hΔ, hsub⟩
      rcases processInvocation_cases executors max st ev with heq | ⟨_, _, hcalls⟩
      · refine ⟨Δ, ?_, ?_⟩
        · rw [hΔ, heq]
        · exact List.Sublist.cons _ hsub
      · refine ⟨traceRecord executors ev :: Δ, ?_, ?_⟩
        · rw [hΔ, hcalls]; simp
        · exact List.Sublist.cons₂ _ hsub

/-! ### Concrete executors used by witnesses -/

/-- The `greet` handler of the crate's doc example: greet the string input. -/
def greetExec : ToolExecutor := fun input =>
  match input with
  | .str s => .ok ("Hello, " ++ s ++ "!")
  | _ => .ok "Hello, world!"

/-- A handler that always fails with `Err("boom")`. -/
def failExec : ToolExecutor := fun _ => .error "boom"

/-- The `count` handler of the max-tool-calls test: always `Ok("1")`. -/
def countExec : ToolExecutor := fun _ => .ok "1"

/-- Orchestrator with the single tool `greet`. -/
def w1_orch : ToolOrchestrator :=
  ToolOrchestrator.new.register_executor "greet" greetExec

/-- A one-invocation trace: the script calls `greet("Claude")`. -/
def w1_trace : List Invocation := [⟨"greet", .str "Claude", 2⟩]

/-- The result `execute` produces for `w1_trace` ending in a unit value. -/
def w1_result : OrchestratorResult :=
  OrchestratorResult.mkSuccess ""
    [ToolCall.new "greet" (.str "Claude") "Hello, Claude!" true 2] 5

/-! ### Claims -/

/-- Claim C1: every execution of `ToolOrchestrator::execute` that returns `Ok`
has an audit log of length at most `limits.max_tool_calls`; the log is an
order-preserving subsequence of the invocation trace's records, so records
appear in the order the script invoked the tools; and an invocation rejected
by the counter (counter already at `max_tool_calls`) leaves the session — in
particular the log — unchanged. -/
theorem execute_audit_log_invariants (o : ToolOrchestrator)
    (limits : ExecutionLimits) (t : Nat) :
    (∀ (run : ScriptOutcome) (r : OrchestratorResult),
        o.execute limits run t = .ok r →
        r.tool_calls.length ≤ limits.max_tool_calls)
    ∧ (∀ (tr : List Invocation) (v : Rhai.Dynamic) (r : OrchestratorResult),
        o.execute limits (.value tr v) t = .ok r →
        List.Sublist r.tool_calls (tr.map (traceRecord o.executors)))
    ∧ (∀ (st : SessionState) (ev : Invocation),
        limits.max_tool_calls ≤ st.call_count →
        (processInvocation o.executors limits.max_tool_calls st ev).2 = st) := by
  refine ⟨?_, ?_, ?_⟩
  · intro run r h
    cases run with
    | compileError msg => simp [ToolOrchestrator.execute] at h
    | evalError tr e => simp [ToolOrchestrator.execute] at h
    | value tr v =>
        simp only [ToolOrchestrator.execute, Except.ok.injEq] at h
        have hlen := runTrace_length_le o.executors limits.max_tool_calls tr
          initialSession (by simp [initialSession]) (by simp [initialSession])
        subst h
        simpa [OrchestratorResult.mkSuccess] using le_trans hlen.1 hlen.2
  · intro tr v r h
    simp only [ToolOrchestrator.execute, Except.ok.injEq] at h
    rcases runTrace_sublist o.executors limits.max_tool_calls tr initialSession
      with ⟨Δ, hΔ, hsub⟩
    subst h
    simp only [OrchestratorResult.mkSuccess]
    rw [hΔ]
    simpa [initialSession] using hsub
  · intro st ev hge
    unfold processInvocation
    cases h : findExecutor o.executors ev.name with
    | none => rfl
    | some exec => simp [toolCallClosure, increment_counter, hge]

/-- Concrete instance of claim C1: the single-call `greet` execution respects
the default cap, its log is a subsequence of the trace records, and a session
already at the cap is left unchanged. -/
theorem execute_audit_log_invariants_witness :
    w1_result.tool_calls.length ≤ ExecutionLimits.default.max_tool_calls
    ∧ List.Sublist w1_result.tool_calls (w1_trace.map (traceRecord w1_orch.executors))
    ∧ (processInvocation w1_orch.executors ExecutionLimits.default.max_tool_calls
        ⟨50, []⟩ ⟨"greet", .unit, 0⟩).2 = ⟨50, []⟩ := by
  have h := execute_audit_log_invariants w1_orch ExecutionLimits.default 5
  exact ⟨h.1 (.value w1_trace .unit) w1_result rfl,
         h.2.1 w1_trace .unit w1_result rfl,
         h.2.2 ⟨50, []⟩ ⟨"greet", .unit, 0⟩ (by decide)⟩

/-- Claim C4: an evaluation failure maps to exactly one typed error by kind —
`ErrorTooManyOperations` to `MaxOperationsExceeded(limits.max_operations)`
(so with `max_operations = 10`, `MaxOperationsExceeded(10)`), an
`ErrorTerminated` abort (the kind the wall-clock `on_progress` hook requests
once elapsed time exceeds the budget) to `Timeout(limits.timeout_ms)`, and
every other evaluation failure to `ExecutionError`. -/
theorem execute_eval_error_mapping (o : ToolOrchestrator)
    (limits : ExecutionLimits) (tr : List Invocation) (t p : Nat)
    (tok : Rhai.Dynamic) (msg : String) :
    o.execute limits (.evalError tr (.ErrorTooManyOperations p)) t
        = .error (.MaxOperationsExceeded limits.max_operations)
    ∧ o.execute limits (.evalError tr (.ErrorTerminated tok p)) t
        = .error (.Timeout limits.timeout_ms)
    ∧ o.execute limits (.evalError tr (.otherError msg)) t
        = .error (.ExecutionError msg)
    ∧ o.execute (ExecutionLimits.default.with_max_operations 10)
        (.evalError tr (.ErrorTooManyOperations p)) t
        = .error (.MaxOperationsExceeded 10)
    ∧ (∀ elapsed_ms, limits.timeout_ms < elapsed_ms →
        on_progress elapsed_ms limits.timeout_ms = some (.str "timeout")) := by
  refine ⟨rfl, rfl, rfl, rfl, ?_⟩
  intro elapsed_ms hlt
  simp [on_progress, hlt]

/-- Concrete instance of claim C4: a 1000-iteration loop under
`max_operations = 10` yields `MaxOperationsExceeded(10)`, a hook-terminated
run yields `Timeout`, and the hook fires at 2ms under a 1ms budget. -/
theorem execute_eval_error_mapping_witness :
    ToolOrchestrator.new.execute (ExecutionLimits.default.with_max_operations 10)
        (.evalError [] (.ErrorTooManyOperations 0)) 3
        = .error (.MaxOperationsExceeded 10)
    ∧ ToolOrchestrator.new.execute (ExecutionLimits.default.with_timeout_ms 1)
        (.evalError [] (.ErrorTerminated (.str "timeout") 0)) 3
        = .error (.Timeout 1)
    ∧ on_progress 2 1 = some (.str "timeout") := by
  have h1 := execute_eval_error_mapping ToolOrchestrator.new
    (ExecutionLimits.default.with_max_operations 10) [] 3 0 (.str "timeout") ""
  have h2 := execute_eval_error_mapping ToolOrchestrator.new
    (ExecutionLimits.default.with_timeout_ms 1) [] 3 0 (.str "timeout") ""
  exact ⟨h1.1, h2.2.1, h2.2.2.2.2 2 (by decide)⟩

/-- Claim C6: a compilation failure returns `CompilationError` with the
compiler's message; the outcome is independent of the registered executors
(no handler can run) and is never an `Ok`, so no tool call can be observed —
tool closures are only entered during evaluation, which a compile failure
prevents from starting. -/
theorem execute_compile_error_short_circuits (o o2 : ToolOrchestrator)
    (limits limits2 : ExecutionLimits) (msg : String) (t t2 : Nat) :
    o.execute limits (.compileError msg) t = .error (.CompilationError msg)
    ∧ o.execute limits (.compileError msg) t
        = o2.execute limits2 (.compileError msg) t2
    ∧ ∀ r : OrchestratorResult, ¬ o.execute limits (.compileError msg) t = .ok r := by
  refine ⟨rfl, rfl, ?_⟩
  intro r h
  simp [ToolOrchestrator.execute] at h

/-- Concrete instance of claim C6: a syntactically invalid script fails with
`CompilationError` regardless of registered tools, and is not an `Ok`. -/
theorem execute_compile_error_short_circuits_witness :
    ToolOrchestrator.new.execute ExecutionLimits.default
        (.compileError "unexpected token") 0
      = .error (.CompilationError "unexpected token")
    ∧ ToolOrchestrator.new.execute ExecutionLimits.default
        (.compileError "unexpected token") 0
      = w1_orch.execute ExecutionLimits.quick (.compileError "unexpected token") 9
    ∧ ¬ ToolOrchestrator.new.execute ExecutionLimits.default
        (.compileError "unexpected token") 0 = .ok w1_result := by
  have h := execute_compile_error_short_circuits ToolOrchestrator.new w1_orch
    ExecutionLimits.default ExecutionLimits.quick "unexpected token" 0 9
  exact ⟨h.1, h.2.1, h.2.2 w1_result⟩

/-- Claim C8: `execute` never returns the `MaxToolCallsExceeded` variant —
every error it produces is one of `CompilationError`, `MaxOperationsExceeded`,
`Timeout` or `ExecutionError`, so the tool-call cap is only ever an in-band
soft failure. -/
theorem execute_never_max_tool_calls_error (o : ToolOrchestrator)
    (limits : ExecutionLimits) (run : ScriptOutcome) (t : Nat)
    (e : OrchestratorError) (h : o.execute limits run t = .error e) :
    e.isMaxToolCallsExceeded = false := by
  cases run with
  | compileError msg =>
      simp only [ToolOrchestrator.execute, Except.error.injEq] at h
      subst h; rfl
  | evalError tr err =>
      simp only [ToolOrchestrator.execute, Except.error.injEq] at h
      subst h
      cases err <;> rfl
  | value tr v => simp [ToolOrchestrator.execute] at h

/-- Concrete instance of claim C8: the error of a failed compile is not
`MaxToolCallsExceeded`. -/
theorem execute_never_max_tool_calls_error_witness :
    (OrchestratorError.CompilationError "unexpected token").isMaxToolCallsExceeded
      = false :=
  execute_never_max_tool_calls_error ToolOrchestrator.new ExecutionLimits.default
    (.compileError "unexpected token") 0 _ rfl

/-- Claim C10: every `Ok(result)` of `execute` satisfies
`result.success = true` and `result.error = none`: the success path builds the
result only through `OrchestratorResult::success`. -/
theorem execute_ok_implies_success_fields (o : ToolOrchestrator)
    (limits : ExecutionLimits) (run : ScriptOutcome) (t : Nat)
    (r : OrchestratorResult) (h : o.execute limits run t = .ok r) :
    r.success = true ∧ r.error = none := by
  cases run with
  | compileError msg => simp [ToolOrchestrator.execute] at h
  | evalError tr err => simp [ToolOrchestrator.execute] at h
  | value tr v =>
      simp only [ToolOrchestrator.execute, Except.ok.injEq] at h
      subst h
      exact ⟨rfl, rfl⟩

/-- Concrete instance of claim C10: the single-call `greet` execution returns
an `Ok` whose `success` is `true` and whose `error` is `none`. -/
theorem execute_ok_implies_success_fields_witness :
    w1_result.success = true ∧ w1_result.error = none :=
  execute_ok_implies_success_fields w1_orch ExecutionLimits.default
    (.value w1_trace .unit) 5 w1_result rfl

theorem dynamicListToJson_eq_map (l : List Rhai.Dynamic) :
    dynamicListToJson l = l.map dynamic_to_json := by
  induction l with
  | nil => rfl
  | cons d ds ih => simp [dynamicListToJson, ih]

theorem dynamicEntriesToJson_eq_map (l : List (String × Rhai.Dynamic)) :
    dynamicEntriesToJson l = l.map (fun kv => (kv.1, dynamic_to_json kv.2)) := by
  induction l with
  | nil => rfl
  | cons kv kvs ih => simp [dynamicEntriesToJson, ih]

/-- Claim C5: `dynamic_to_json` is a total, deterministic function (it is a
Lean function on the whole dynamic value space, so it never fails), and it
follows exactly the tag policy: string to JSON string, integer to JSON
number, float to JSON number, boolean to JSON boolean, array to JSON array
with elements converted recursively in original order, map to JSON object
with stringified keys and recursively converted values, unit to JSON null,
and any other value to a JSON string holding its debug-style text. -/
theorem dynamic_to_json_total_policy :
    (∀ s, dynamic_to_json (.str s) = .str s)
    ∧ (∀ i, dynamic_to_json (.int i) = .intNum i)
    ∧ (∀ f, dynamic_to_json (.float f) = .floatNum f)
    ∧ (∀ b, dynamic_to_json (.bool b) = .bool b)
    ∧ (∀ elems, dynamic_to_json (.array elems) = .arr (elems.map dynamic_to_json))
    ∧ (∀ entries, dynamic_to_json (.map entries)
        = .obj (entries.map (fun kv => (kv.1, dynamic_to_json kv.2))))
    ∧ dynamic_to_json .unit = .null
    ∧ (∀ dbg, dynamic_to_json (.other dbg)
        = .str (Rhai.Dynamic.debugFormat (.other dbg))) := by
  refine ⟨fun _ => rfl, fun _ => rfl, fun _ => rfl, fun _ => rfl, ?_, ?_,
    rfl, fun _ => rfl⟩
  · intro elems
    simp [dynamic_to_json, dynamicListToJson_eq_map]
  · intro entries
    simp [dynamic_to_json, dynamicEntriesToJson_eq_map]

/-- Orchestrator with the single tool `count`. -/
def c2_orch : ToolOrchestrator :=
  ToolOrchestrator.new.register_executor "count" countExec

/-- Limits of the max-tool-calls scenario: defaults with `max_tool_calls = 3`. -/
def c2_limits : ExecutionLimits := ExecutionLimits.default.with_max_tool_calls 3

/-- The in-band sentinel the rejected fourth call returns. -/
def c2_sentinel : String := "ERROR: Maximum tool calls (3) exceeded"

/-- One `count` invocation with a string argument. -/
def c2_inv (s : String) : Invocation := ⟨"count", .str s, 0⟩

/-- The trace of a script calling `count` four times. -/
def c2_trace : List Invocation := [c2_inv "1", c2_inv "2", c2_inv "3", c2_inv "4"]

/-- Claim C2: with `max_tool_calls = 3` and a script invoking the same
registered tool four times, the fourth call returns exactly
`"ERROR: Maximum tool calls (3) exceeded"`, does not invoke the handler
(the closure answers the sentinel and leaves the session unchanged for every
possible handler once the counter is at 3), is not recorded
(`len(tool_calls) = 3`), and the script keeps running: the execution returns
`Ok` with `success = true`. -/
theorem max_tool_calls_soft_limit :
    c2_limits.max_tool_calls = 3
    ∧ (runTrace c2_orch.executors c2_limits.max_tool_calls initialSession
        c2_trace).1.get? 3 = some c2_sentinel
    ∧ (runTrace c2_orch.executors c2_limits.max_tool_calls initialSession
        c2_trace).2.tool_calls.length = 3
    ∧ (∀ (f : ToolExecutor) (st : SessionState), st.call_count = 3 →
        toolCallClosure f "count" 3 (.str "4") 0 st = (c2_sentinel, st))
    ∧ (∃ r, c2_orch.execute c2_limits (.value c2_trace (.str c2_sentinel)) 7
          = .ok r
        ∧ r.success = true ∧ r.output = c2_sentinel ∧ r.tool_calls.length = 3) := by
  refine ⟨rfl, rfl, rfl, ?_, ⟨_, rfl, rfl, rfl, rfl⟩⟩
  intro f st h
  have hinc : increment_counter st.call_count 3 = .error () := by
    simp [increment_counter, h]
  simp only [toolCallClosure, hinc]
  rfl

/-- Concrete instance of claim C2: a handler-independent rejected fourth call
at a counter of 3. -/
theorem max_tool_calls_soft_limit_witness :
    toolCallClosure countExec "count" 3 (.str "4") 0 ⟨3, []⟩
      = (c2_sentinel, ⟨3, []⟩) :=
  max_tool_calls_soft_limit.2.2.2.1 countExec ⟨3, []⟩ rfl

/-- Claim C3: a handler that fails with `Err(e)` on an accepted call makes the
closure return `"Tool error: " ++ e` to the script and append an audit record
with `success = false` and that same string as output; the failure never
escapes as an orchestrator error — any run that evaluates to a value still
returns `Ok` with `ExecutionResult.success = true`. -/
theorem handler_error_in_band (o : ToolOrchestrator) (exec : ToolExecutor)
    (name : String) (input : Rhai.Dynamic) (dur : Nat) (st : SessionState)
    (e : String) (max_calls : Nat)
    (hfind : findExecutor o.executors name = some exec)
    (herr : exec (dynamic_to_json input) = .error e)
    (hcount : st.call_count < max_calls) :
    processInvocation o.executors max_calls st ⟨name, input, dur⟩
      = ("Tool error: " ++ e,
         { call_count := st.call_count + 1,
           tool_calls := st.tool_calls
             ++ [ToolCall.new name (dynamic_to_json input)
                  ("Tool error: " ++ e) false dur] })
    ∧ (∀ (limits : ExecutionLimits) (tr : List Invocation) (v : Rhai.Dynamic)
        (t : Nat) (r : OrchestratorResult),
        o.execute limits (.value tr v) t = .ok r → r.success = true) := by
  constructor
  · have hinc : increment_counter st.call_count max_calls
        = .ok (st.call_count + 1) := by
      simp [increment_counter, Nat.not_le.mpr hcount]
    simp [processInvocation, hfind, toolCallClosure, hinc, herr]
  · intro limits tr v t r h
    simp only [ToolOrchestrator.execute, Except.ok.injEq] at h
    subst h
    rfl

/-- Orchestrator with the single failing tool `fail_tool`. -/
def c3_orch : ToolOrchestrator :=
  ToolOrchestrator.new.register_executor "fail_tool" failExec

/-- Concrete instance of claim C3: `fail_tool("test")` produces the in-band
`"Tool error: boom"` output, an unsuccessful audit record, and the overall
execution still succeeds. -/
theorem handler_error_in_band_witness :
    processInvocation c3_orch.executors 50 initialSession
        ⟨"fail_tool", .str "test", 4⟩
      = ("Tool error: boom",
         { call_count := 1,
           tool_calls := [ToolCall.new "fail_tool" (.str "test")
             "Tool error: boom" false 4] })
    ∧ (OrchestratorResult.mkSuccess "Tool error: boom"
        [ToolCall.new "fail_tool" (.str "test") "Tool error: boom" false 4]
        6).success = true := by
  have h := handler_error_in_band c3_orch failExec "fail_tool" (.str "test") 4
    initialSession "boom" 50 rfl rfl (by decide)
  refine ⟨?_, ?_⟩
  · simpa [initialSession] using h.1
  · exact h.2 ExecutionLimits.default [⟨"fail_tool", .str "test", 4⟩]
      (.str "Tool error: boom") 6 _ rfl

/-- Claim C7: a successful evaluation returns `Ok` carrying the accumulated
audit log and the elapsed duration, with the final value normalized to text:
a string passes through unchanged, unit becomes the empty string, and every
other value is rendered in its debug-style textual form. -/
theorem execute_output_normalization (o : ToolOrchestrator)
    (limits : ExecutionLimits) (tr : List Invocation) (v : Rhai.Dynamic)
    (t : Nat) :
    ∃ r, o.execute limits (.value tr v) t = .ok r
      ∧ r.tool_calls
          = (runTrace o.executors limits.max_tool_calls initialSession tr).2.tool_calls
      ∧ r.execution_time_ms = t
      ∧ (∀ s, v = .str s → r.output = s)
      ∧ (v = .unit → r.output = "")
      ∧ (v.is_string = false → v.is_unit = false → r.output = v.debugFormat) := by
  refine ⟨_, rfl, rfl, rfl, ?_, ?_, ?_⟩
  · rintro s rfl
    rfl
  · rintro rfl
    rfl
  · intro hs hu
    simp [OrchestratorResult.mkSuccess, hs, hu]

/-- Concrete instance of claim C7: a final integer value 42 is rendered in
debug style as `"42"`. -/
theorem execute_output_normalization_witness :
    ∃ r, ToolOrchestrator.new.execute ExecutionLimits.default
        (.value [] (.int 42)) 1 = .ok r ∧ r.output = "42" := by
  obtain ⟨r, h1, _, _, _, _, h6⟩ := execute_output_normalization
    ToolOrchestrator.new ExecutionLimits.default [] (.int 42) 1
  exact ⟨r, h1, by rw [h6 rfl rfl]; rfl⟩

/-- Claim C9 counterexample: the host surface of the core orchestrator
(the `pub fn` items of `impl ToolOrchestrator` in engine.rs together with its
`Default` impl) contains no `unregister` operation. -/
theorem toolOrchestrator_has_no_unregister :
    ToolOrchestrator.hostMethods.contains "unregister" = false := by decide

theorem shellToolsLookup_remove (tools : List (String × RegisteredShellTool))
    (name : String) :
    shellToolsLookup (shellToolsRemove tools name) name = none := by
  induction tools with
  | nil => rfl
  | cons kv rest ih =>
      by_cases h : kv.1 = name
      · simpa [shellToolsRemove, List.filter, h] using ih
      · simpa [shellToolsRemove, List.filter, h, shellToolsLookup] using ih

/-- Claim C9 (amended): unregistration lives on the MCP service, not on the
core orchestrator.  `ToolOrchestratorService::unregister_tool` computes an
internal boolean `removed` that is true exactly when a tool registered under
the name existed; after the call the name no longer resolves among the
registered shell tools; and the host-visible reply is a text message chosen
by that boolean, not a bare boolean. -/
theorem unregister_tool_semantics (tools : List (String × RegisteredShellTool))
    (name : String) :
    (ToolOrchestratorService.unregister_tool tools name).1
        = (shellToolsLookup tools name).isSome
    ∧ shellToolsLookup (ToolOrchestratorService.unregister_tool tools name).2.2
        name = none
    ∧ ((shellToolsLookup tools name).isSome = true →
        (ToolOrchestratorService.unregister_tool tools name).2.1
          = "Tool \x27" ++ name ++ "\x27 unregistered")
    ∧ ((shellToolsLookup tools name).isSome = false →
        (ToolOrchestratorService.unregister_tool tools name).2.1
          = "Tool \x27" ++ name ++ "\x27 not found") := by
  by_cases h : (shellToolsLookup tools name).isSome
  · refine ⟨?_, ?_, ?_, ?_⟩ <;>
      simp [ToolOrchestratorService.unregister_tool, h, shellToolsLookup_remove]
  · refine ⟨?_, ?_, ?_, ?_⟩ <;>
      simp [ToolOrchestratorService.unregister_tool, h, shellToolsLookup_remove]

/-- A one-entry shell-tool table holding the tool `echo`. -/
def c9_tools : List (String × RegisteredShellTool) :=
  [("echo", { name := "echo", description := "echo the input",
              command := "echo $input" })]

/-- Concrete instance of amended claim C9: unregistering the existing `echo`
reports removal and afterwards the name no longer resolves. -/
theorem unregister_tool_semantics_witness :
    (ToolOrchestratorService.unregister_tool c9_tools "echo").1 = true
    ∧ (ToolOrchestratorService.unregister_tool c9_tools "echo").2.1
        = "Tool \x27echo\x27 unregistered"
    ∧ shellToolsLookup
        (ToolOrchestratorService.unregister_tool c9_tools "echo").2.2 "echo"
        = none := by
  have h := unregister_tool_semantics c9_tools "echo"
  exact ⟨by rw [h.1]; rfl, h.2.2.1 rfl, h.2.1⟩
